import Mathlib

/-!
Verification of the ColdEmailGenerator orchestration core.

The Python source (main2.py / main3.py, class OutreachGenerator) is shallowly
embedded below.  Strings are modelled as lists of characters (`Str`); Python's
in-memory dict is modelled as an insertion-ordered association list (`Cache`)
with last-writer-wins update; file contents are modelled as a single `Str`;
external collaborators (search API, page fetcher, generation API, json.loads)
are passed in as explicit arguments or oracle values.  Every embedded function
is total, which reflects the source's behaviour of catching exceptions at the
boundary named in the corresponding doc comment.
-/

namespace CEG

/-- Strings are lists of characters; Python slicing/iteration is per character. -/
abbrev Str := List Char

/-- The characters removed by Python's `str.strip()` with no argument. -/
def pyIsSpace (c : Char) : Bool :=
  c = ' ' || c = '\t' || c = '\n' || c = '\r' || c = '\x0b' || c = '\x0c'

/-- Drop trailing characters satisfying `p`. -/
def dropEnd (p : Char → Bool) (l : Str) : Str :=
  (l.reverse.dropWhile p).reverse

/-- Python `str.strip()`: remove whitespace from both ends. -/
def pyStrip (l : Str) : Str :=
  dropEnd pyIsSpace (l.dropWhile pyIsSpace)

/-- Boolean prefix test: does `l` start with `pat`? -/
def leadsWith : Str → Str → Bool
  | [], _ => true
  | _ :: _, [] => false
  | a :: as, b :: bs => a == b && leadsWith as bs

/-- Boolean suffix test: does `l` end with `pat`? -/
def trailsWith (pat l : Str) : Bool :=
  leadsWith pat.reverse l.reverse

/-- Split at the first occurrence of `pat`: Python `s.split(pat, 1)` in the
case where `pat` occurs in `s` (otherwise `none`). -/
def splitFirst (pat : Str) : Str → Option (Str × Str)
  | [] => if pat = [] then some ([], []) else none
  | c :: rest =>
    if leadsWith pat (c :: rest) then some ([], (c :: rest).drop pat.length)
    else
      match splitFirst pat rest with
      | some (a, b) => some (c :: a, b)
      | none => none

/-- Python `pat in s` substring test. -/
def containsSub (pat l : Str) : Bool := (splitFirst pat l).isSome

/-- The fixed 3-character cache separator `|||`. -/
def sepTok : Str := ['|', '|', '|']

/-- Python `s.replace('|||', '')`: scan left to right, removing each
occurrence of the separator (here matched literally as three pipes). -/
def removeSep : Str → Str
  | '|' :: '|' :: '|' :: rest => removeSep rest
  | c :: rest => c :: removeSep rest
  | [] => []

/-- Split file content into lines at newline characters.  This models Python's
per-line file iteration; the line terminator, which Python keeps on the line,
is dropped here — the load routine's `line.strip()` removes it anyway, and a
bare `'\n'` cannot affect the `'|||' in line` membership test. -/
def splitLines : Str → List Str
  | [] => [[]]
  | c :: rest =>
    if c = '\n' then [] :: splitLines rest
    else
      match splitLines rest with
      | [] => [[c]]
      | line :: more => (c :: line) :: more

/-- The in-memory company cache: Python dict as an insertion-ordered
association list with unique keys. -/
abbrev Cache := List (Str × Str)

/-- Python `d.get(k)` / `k in d` lookup. -/
def dGet : Cache → Str → Option Str
  | [], _ => none
  | (k, v) :: rest, key => if k = key then some v else dGet rest key

/-- Python `d[k] = v`: update in place when the key exists, else append. -/
def dSet : Cache → Str → Str → Cache
  | [], key, val => [(key, val)]
  | (k, v) :: rest, key, val =>
    if k = key then (k, val) :: rest else (k, v) :: dSet rest key val

/-- `OutreachGenerator.load_company_cache`, processing of a single line
(main2.py lines 62-70, identical in main3.py): if the line contains `|||`,
strip the line and split once at the separator, strip both parts and store
them; otherwise skip the line.  The inner `try` of the source can only fire
on I/O faults, which do not exist in this pure model; the `len(parts) == 2`
guard corresponds to the `none` branch of the inner match. -/
def parseCacheLine (cache : Cache) (line : Str) : Cache :=
  if containsSub sepTok line then
    match splitFirst sepTok (pyStrip line) with
    | some (k, v) => dSet cache (pyStrip k) (pyStrip v)
    | none => cache
  else cache

/-- `OutreachGenerator.load_company_cache` (main2.py lines 55-73): fold the
line rule over all lines of the file content.  Errors are logged and
swallowed in the source, so loading is total and never raises. -/
def loadCache (file : Str) : Cache :=
  (splitLines file).foldl parseCacheLine []

/-- Sanitisation applied by `save_company_cache` to each key and value:
`x.replace('|||', '').strip()` (main2.py lines 91-92). -/
def sanitize (s : Str) : Str := pyStrip (removeSep s)

/-- One line written by `save_company_cache`:
`f"{clean_company}|||{clean_summary}\n"`. -/
def cacheLine (k v : Str) : Str :=
  sanitize k ++ sepTok ++ sanitize v ++ ['\n']

/-- `OutreachGenerator.save_company_cache` (main2.py lines 75-96): the file
content produced by writing one sanitised line per cache entry, in dict
order.  The backup-copy step does not affect the written content. -/
def saveCache : Cache → Str
  | [] => []
  | (k, v) :: rest => cacheLine k v ++ saveCache rest

/-- Build a dict from a list of pairs by repeated Python-style assignment:
the reference mapping a round trip is compared against. -/
def buildDict (l : List (Str × Str)) : Cache :=
  l.foldl (fun c p => dSet c p.1 p.2) []

/-- JSON values as produced by `json.loads`. -/
inductive Json where
  | str : Str → Json
  | num : Int → Json
  | bool : Bool → Json
  | null : Json
  | arr : List Json → Json
  | obj : List (Str × Json) → Json

/-- Lookup of a field in a JSON object (Python `"k" in d` / `d["k"]` /
`d.get("k")` on the decoded dict). -/
def jLookup : List (Str × Json) → Str → Option Json
  | [], _ => none
  | (k, v) :: rest, key => if k = key then some v else jLookup rest key

/-- Python truthiness of a decoded JSON value. -/
def jTruthy : Json → Bool
  | .str s => !s.isEmpty
  | .num n => n != 0
  | .bool b => b
  | .null => false
  | .arr xs => !xs.isEmpty
  | .obj fs => !fs.isEmpty

mutual
/-- Python `repr` of a decoded JSON value, used by `str` on containers.
String escaping inside `repr` is not modelled; no claim depends on it. -/
def pyRepr : Json → Str
  | .str s => '\'' :: s ++ ['\'']
  | .num n => (toString n).data
  | .bool b => if b then "True".data else "False".data
  | .null => "None".data
  | .arr xs => '[' :: pyReprList xs ++ [']']
  | .obj fs => '\x7b' :: pyReprFields fs ++ ['\x7d']

def pyReprList : List Json → Str
  | [] => []
  | [x] => pyRepr x
  | x :: y :: rest => pyRepr x ++ ", ".data ++ pyReprList (y :: rest)

def pyReprFields : List (Str × Json) → Str
  | [] => []
  | [(k, v)] => '\'' :: k ++ "': ".data ++ pyRepr v
  | (k, v) :: p :: rest =>
    '\'' :: k ++ "': ".data ++ pyRepr v ++ ", ".data ++ pyReprFields (p :: rest)
end

/-- Python `str()` of a decoded JSON value, as interpolated by an f-string. -/
def pyStr : Json → Str
  | .str s => s
  | v => pyRepr v

/-- Sentinel returned when the extraction output holds no summary. -/
def noSummarySentinel : Str := "No summary extracted".data

/-- Sentinel returned when the extraction output is malformed JSON. -/
def parseFailSentinel : Str := "Failed to parse extraction result".data

/-- `OutreachGenerator._parse_extraction_result` (main2.py lines 265-281,
identical in main3.py lines 221-237).  The argument is the result of
`json.loads(extracted_content)`: `none` models a `json.JSONDecodeError`,
which the source catches and converts to the parse-failure sentinel — it is
never re-raised.  A dict with a `summary` field, or a non-empty list whose
first element is such a dict, yields the stored field value; everything else
yields the no-summary sentinel. -/
def parseExtractionResult : Option Json → Json
  | none => .str parseFailSentinel
  | some d =>
    match d with
    | .obj fs =>
      match jLookup fs "summary".data with
      | some v => v
      | none => .str noSummarySentinel
    | .arr (x :: _) =>
      match x with
      | .obj fs =>
        match jLookup fs "summary".data with
        | some v => v
        | none => .str noSummarySentinel
      | _ => .str noSummarySentinel
    | _ => .str noSummarySentinel

/-- Outcome of the company-information step of `process_row`. -/
structure CompanyResolution where
  info : Str
  cache : Cache
  fetched : Bool
  savedImmediately : Bool
deriving DecidableEq

/-- The company-information resolution of `OutreachGenerator.process_row`
(main2.py lines 364-377, identical in main3.py lines 320-333).  `scrape` is
the value `await self.scrape_url(company_website)` would produce on this row
— the empty string on invalid URL, fetch failure or extraction failure, and
`parseExtractionResult` output otherwise.  On a cache hit the stored value is
returned and nothing is fetched; on a miss with a (truthy) website the page
is scraped and the result is written to the cache, and the cache is saved
immediately, exactly when the result is non-empty and differs from the
no-summary sentinel. -/
def resolveCompanyInfo (cache : Cache) (name website scrape : Str) :
    CompanyResolution :=
  match dGet cache name with
  | some v => ⟨v, cache, false, false⟩
  | none =>
    if website ≠ [] then
      if scrape ≠ [] ∧ scrape ≠ noSummarySentinel then
        ⟨scrape, dSet cache name scrape, true, true⟩
      else ⟨scrape, cache, true, false⟩
    else ⟨[], cache, false, false⟩

/-- Outcome of the generation collaborator, as observed by `process_row`:
`generate_content` either returns a parsed pair or exhausts its retries and
raises, in which case `process_row`'s boundary handler produces the
`Error: ...` pair (main2.py lines 399-401). -/
inductive GenOutcome where
  | ok (linkedin email : Str)
  | raise (msg : Str)
deriving DecidableEq

def noContentSentinel : Str := "No content available".data

def noCompanyInfoSentinel : Str := "No company info available".data

def errorTag : Str := "Error".data

/-- The tail of `OutreachGenerator.process_row` in main2.py (lines 379-401)
after the lead and company information have been resolved: if both are empty
after stripping, short-circuit to the no-content sentinel pair without
invoking generation; otherwise invoke generation (the returned flag records
the invocation) and either return its pair or convert a raised failure to the
`Error: ...` pair at the row boundary. -/
def processRowTail2 (leadInfo companyInfo : Str) (gen : GenOutcome) :
    (Str × Str) × Bool :=
  if pyStrip leadInfo = [] ∧ pyStrip companyInfo = [] then
    ((noContentSentinel, noContentSentinel), false)
  else
    match gen with
    | .ok lr em => ((lr, em), true)
    | .raise m => ((errorTag ++ ": ".data ++ m, errorTag ++ ": ".data ++ m), true)

/-- The tail of `OutreachGenerator.process_row` in main3.py (lines 335-356):
lead research is skipped entirely (`lead_info = ""`), so only the company
information is checked; the no-content sentinel of this variant reads
`No company info available`. -/
def processRowTail3 (companyInfo : Str) (gen : GenOutcome) :
    (Str × Str) × Bool :=
  if pyStrip companyInfo = [] then
    ((noCompanyInfoSentinel, noCompanyInfoSentinel), false)
  else
    match gen with
    | .ok lr em => ((lr, em), true)
    | .raise m => ((errorTag ++ ": ".data ++ m, errorTag ++ ": ".data ++ m), true)

/-- `re.search(start + r'\s*(.*?)\s*' + end_, text, re.DOTALL)` followed by
`.group(1)`: the region between the first occurrence of the start marker and
the earliest occurrence of the end marker after it, with the surrounding
whitespace left in place (the source strips the group afterwards, which
subsumes the `\s*` borders).  `none` models a failed search. -/
def regexBetween (startM endM t : Str) : Option Str :=
  match splitFirst startM t with
  | none => none
  | some (_, rest) =>
    match splitFirst endM rest with
    | none => none
    | some (inner, _) => some inner

def lkStartTok : Str := "LINKEDIN_REQUEST_START".data
def lkEndTok : Str := "LINKEDIN_REQUEST_END".data
def emStartTok : Str := "EMAIL_START".data
def emEndTok : Str := "EMAIL_END".data

def failLinkedin : Str := "Failed to parse LinkedIn request".data
def failEmail : Str := "Failed to parse email".data
def ellipsisTok : Str := "...".data

/-- The LinkedIn field of main2.py's `_parse_generated_content` before the
length validation (lines 307-312): the stripped delimited region, or the
parse-failure sentinel when a marker is missing. -/
def delimLinkedinRaw (t : Str) : Str :=
  match regexBetween lkStartTok lkEndTok t with
  | some g => pyStrip g
  | none => failLinkedin

/-- The email field of main2.py's `_parse_generated_content`
(lines 315-320). -/
def delimEmail (t : Str) : Str :=
  match regexBetween emStartTok emEndTok t with
  | some g => pyStrip g
  | none => failEmail

/-- The length validation of main2.py's `_parse_generated_content`
(lines 323-325): texts longer than 300 characters become their first 297
characters plus `...`. -/
def pyTruncate (l : Str) : Str :=
  if 300 < l.length then l.take 297 ++ ellipsisTok else l

/-- `OutreachGenerator._parse_generated_content` of main2.py
(lines 303-331), the delimiter parsing mode.  The `except` branch of the
source is unreachable — `re.search` and `str.strip` on a string do not
raise — so the function is the `try` body and is total. -/
def parseGeneratedContentDelim (t : Str) : Str × Str :=
  (pyTruncate (delimLinkedinRaw t), delimEmail t)

def failJson : Str := "Failed to parse JSON response".data

/-- `OutreachGenerator._parse_generated_content` of main3.py
(lines 280-305), the JSON parsing mode, as a function of the decoded value.
The argument models `json.loads(json_text)` applied after
`_extract_json_from_markdown`: `none` is a `json.JSONDecodeError`, caught
and turned into the JSON-failure sentinel pair; a decoded non-dict raises
`AttributeError` at `data.get`, caught by the generic handler and turned
into the field-failure sentinel pair; a decoded dict yields its
`linkedin_request` field (defaulted) and the email assembled from subject
and body by the f-string.  No length validation is performed in this mode. -/
def parseGeneratedContentJson (j : Option Json) : Json × Json :=
  match j with
  | none => (.str failJson, .str failJson)
  | some (Json.obj fs) =>
    let lr := (jLookup fs "linkedin_request".data).getD (.str failLinkedin)
    let subj := (jLookup fs "email_subject".data).getD (.str [])
    let body := (jLookup fs "email_body".data).getD (.str [])
    let email :=
      if jTruthy subj then
        Json.str ("Subject: ".data ++ pyStr subj ++ "\n\n".data ++ pyStr body)
      else body
    (lr, email)
  | some _ => (.str failLinkedin, .str failEmail)

/-- `"Success" if not result["LinkedIn Request"].startswith("Error") else
"Failed"` (main2.py line 439, identical in main3.py line 396). -/
def rowStatus (linkedin : Str) : Str :=
  if leadsWith errorTag linkedin then "Failed".data else "Success".data

/-- The row loop of `OutreachGenerator.process_excel_file` (main2.py lines
432-459, identical in main3.py lines 389-416), given the per-row results of
`process_row` (which is total: its boundary handler converts every internal
failure into an `Error: ...` result pair).  `i` is the zero-based index of
the first remaining row.  Returns the recorded Processing Status column and
the one-based row counts `index + 1` after which the periodic
`df.to_excel(output_file)` progress save ran. -/
def batchLoop (i : Nat) : List (Str × Str) → List Str × List Nat
  | [] => ([], [])
  | (lr, _) :: rest =>
    let r := batchLoop (i + 1) rest
    (rowStatus lr :: r.1, if (i + 1) % 5 = 0 then (i + 1) :: r.2 else r.2)

/-- Result of a batch run: statuses, the rows after which a periodic output
write happened, and the total number of output writes including the
unconditional final `df.to_excel` after the loop (main2.py line 462). -/
structure BatchOut where
  statuses : List Str
  saveRows : List Nat
  totalWrites : Nat
deriving DecidableEq

/-- `OutreachGenerator.process_excel_file` output-persistence behaviour over
the whole run. -/
def runBatch (results : List (Str × Str)) : BatchOut :=
  let r := batchLoop 0 results
  ⟨r.1, r.2, r.2.length + 1⟩

/-- The periodic save points determined by the row count alone. -/
def savePointsCalc (i : Nat) : Nat → List Nat
  | 0 => []
  | n + 1 =>
    if (i + 1) % 5 = 0 then (i + 1) :: savePointsCalc (i + 1) n
    else savePointsCalc (i + 1) n

/-- Modelled from the spec: the RetryPolicy of §4.3 is realised in the source
only through the third-party `backoff.on_exception(backoff.expo, Exception,
max_tries=3, ...)` decorators on `get_person_info` (main2.py line 99) and
`generate_content` (main2.py line 283, main3.py line 239); the retry loop
itself is library code outside this repository.  Per the spec: execute the
operation; on failure retry up to `maxAttempts` total attempts (the first
attempt counts as 1); re-raise the last failure when all attempts are
exhausted.  `op n` is the outcome of the n-th invocation (attempts numbered
from 1); the delay between attempts does not affect the value returned.
Returns the final outcome and the number of invocations performed. -/
def retryFrom (op : Nat → Except Str Str) : Nat → Nat → Except Str Str × Nat
  | i, 0 => (op i, 1)
  | i, 1 => (op i, 1)
  | i, n + 2 =>
    match op i with
    | .ok a => (.ok a, 1)
    | .error _ =>
      let r := retryFrom op (i + 1) (n + 1)
      (r.1, r.2 + 1)

/-- Modelled from the spec: `run(operation, maxAttempts)` of §4.3, with
attempts numbered from 1. -/
def retryRun (maxAttempts : Nat) (op : Nat → Except Str Str) :
    Except Str Str × Nat :=
  retryFrom op 1 maxAttempts

/-- The `max_tries` argument the source passes to every backoff decorator. -/
def sourceMaxTries : Nat := 3

/-- Per-line specification of cache loading, used to characterise `loadCache`:
a line yields an entry exactly when it contains the separator, in which case
the stripped line is split once at the first separator and both parts are
stripped.  The parts may be empty — the source performs no non-emptiness
check. -/
def lineEntry (line : Str) : Option (Str × Str) :=
  if containsSub sepTok line then
    match splitFirst sepTok (pyStrip line) with
    | some (k, v) => some (pyStrip k, pyStrip v)
    | none => none
  else none

/-!  ## General lemmas about the string machinery -/

theorem leadsWith_append_self (p x : Str) : leadsWith p (p ++ x) = true := by
  induction p with
  | nil => rfl
  | cons c rest ih => simp [leadsWith, ih]

theorem leadsWith_append_left (p : Str) :
    ∀ a b : Str, p.length ≤ a.length → leadsWith p (a ++ b) = leadsWith p a := by
  induction p with
  | nil => intro a b _; rfl
  | cons c rest ih =>
    intro a b h
    cases a with
    | nil => simp at h
    | cons y a' =>
      simp only [List.cons_append, leadsWith]
      congr 1
      exact ih a' b (by simpa using h)

theorem splitFirst_sep_self (v : Str) :
    splitFirst sepTok (sepTok ++ v) = some ([], v) := by
  simp [sepTok, splitFirst, leadsWith]

theorem containsSub_cons (pat : Str) (c : Char) (l : Str) :
    containsSub pat (c :: l) = (leadsWith pat (c :: l) || containsSub pat l) := by
  simp only [containsSub, splitFirst]
  by_cases h : leadsWith pat (c :: l) = true
  · simp [h]
  · simp only [Bool.not_eq_true] at h
    simp only [h, if_false, Bool.false_or]
    cases hs : splitFirst pat l <;> simp [hs]

theorem containsSub_middle (k v : Str) :
    containsSub sepTok (k ++ (sepTok ++ v)) = true := by
  induction k with
  | nil => simp [containsSub, splitFirst_sep_self]
  | cons c k' ih =>
    rw [List.cons_append, containsSub_cons]
    simp [ih]

theorem splitFirst_boundary :
    ∀ k v : Str, containsSub sepTok (k ++ ['|', '|']) = false →
      splitFirst sepTok (k ++ sepTok ++ v) = some (k, v) := by
  intro k
  induction k with
  | nil => intro v _; simpa using splitFirst_sep_self v
  | cons c k' ih =>
    intro v h
    rw [List.cons_append, containsSub_cons] at h
    simp only [Bool.or_eq_false_iff] at h
    obtain ⟨hlead, hrest⟩ := h
    have hre : (c :: k') ++ sepTok ++ v
        = ((c :: k') ++ ['|', '|']) ++ ('|' :: v) := by
      simp [sepTok]
    have hlen : sepTok.length ≤ ((c :: k') ++ ['|', '|']).length := by
      simp [sepTok]
    have hlead2 : leadsWith sepTok ((c :: k') ++ sepTok ++ v) = false := by
      rw [hre, leadsWith_append_left sepTok _ _ hlen]
      simpa using hlead
    have hsplit := ih v hrest
    simp only [List.cons_append, List.append_assoc] at hlead2 hsplit ⊢
    simp only [splitFirst, hlead2, Bool.false_eq_true, if_false, hsplit]

theorem dropWhile_head (p : Char → Bool) :
    ∀ (l : Str) (c : Char) (rest : Str), l.dropWhile p = c :: rest → p c = false := by
  intro l
  induction l with
  | nil => intro c rest h; simp [List.dropWhile] at h
  | cons x l' ih =>
    intro c rest h
    by_cases hx : p x = true
    · rw [List.dropWhile_cons_of_pos hx] at h
      exact ih c rest h
    · rw [List.dropWhile_cons_of_neg hx] at h
      cases h
      simpa using hx

theorem exists_pre_dropWhile (p : Char → Bool) (l : Str) :
    ∃ t, l = t ++ l.dropWhile p := by
  induction l with
  | nil => exact ⟨[], rfl⟩
  | cons x l' ih =>
    by_cases hx : p x = true
    · obtain ⟨t, ht⟩ := ih
      exact ⟨x :: t, by rw [List.dropWhile_cons_of_pos hx, List.cons_append, ← ht]⟩
    · exact ⟨[], by rw [List.dropWhile_cons_of_neg hx]; rfl⟩

theorem dropEnd_head (p : Char → Bool) (l : Str) (c : Char) (rest : Str)
    (h : dropEnd p l = c :: rest) : ∃ t, l = c :: t := by
  obtain ⟨t, ht⟩ := exists_pre_dropWhile p l.reverse
  have : l = (dropEnd p l) ++ t.reverse := by
    have := congrArg List.reverse ht
    simpa [dropEnd] using this
  exact ⟨rest ++ t.reverse, by rw [this, h]; rfl⟩

theorem pyStrip_head (l : Str) (c : Char) (rest : Str)
    (h : pyStrip l = c :: rest) : pyIsSpace c = false := by
  unfold pyStrip at h
  obtain ⟨t, ht⟩ := dropEnd_head pyIsSpace _ c rest h
  exact dropWhile_head pyIsSpace l c t ht

theorem pyStrip_rev_head (l : Str) (c : Char) (rest : Str)
    (h : (pyStrip l).reverse = c :: rest) : pyIsSpace c = false := by
  unfold pyStrip dropEnd at h
  rw [List.reverse_reverse] at h
  exact dropWhile_head pyIsSpace _ c rest h

theorem pyStrip_fixed (l : Str)
    (h1 : ∀ c rest, l = c :: rest → pyIsSpace c = false)
    (h2 : ∀ c rest, l.reverse = c :: rest → pyIsSpace c = false) :
    pyStrip l = l := by
  cases hl : l with
  | nil => rfl
  | cons x l' =>
    have hx : pyIsSpace x = false := h1 x l' hl
    have hdw : (x :: l').dropWhile pyIsSpace = x :: l' :=
      List.dropWhile_cons_of_neg (by simp [hx])
    unfold pyStrip
    rw [hdw]
    cases hr : (x :: l').reverse with
    | nil => simp at hr
    | cons y r' =>
      have hy : pyIsSpace y = false := by
        apply h2 y r'
        rw [hl]; exact hr
      unfold dropEnd
      rw [hr, List.dropWhile_cons_of_neg (by simp [hy]), ← hr,
        List.reverse_reverse]

theorem pyStrip_idem (l : Str) : pyStrip (pyStrip l) = pyStrip l := by
  apply pyStrip_fixed
  · exact fun c rest h => pyStrip_head l c rest h
  · exact fun c rest h => pyStrip_rev_head l c rest h

theorem pyStrip_wrap (a b : Str) :
    pyStrip (pyStrip a ++ sepTok ++ pyStrip b) = pyStrip a ++ sepTok ++ pyStrip b := by
  apply pyStrip_fixed
  · intro c rest h
    cases ha : pyStrip a with
    | nil =>
      rw [ha] at h
      simp [sepTok] at h
      cases h.1
      decide
    | cons x a' =>
      rw [ha] at h
      simp only [List.cons_append, List.cons.injEq] at h
      rw [← h.1]
      exact pyStrip_head a x a' ha
  · intro c rest h
    simp only [List.append_assoc, List.reverse_append] at h
    cases hb : (pyStrip b).reverse with
    | nil =>
      rw [hb] at h
      simp [sepTok] at h
      cases h.1
      decide
    | cons y b' =>
      rw [hb] at h
      simp only [List.cons_append, List.cons.injEq] at h
      rw [← h.1]
      exact pyStrip_rev_head b y b' hb

theorem splitLines_append (line : Str) (rest : Str) (h : '\n' ∉ line) :
    splitLines (line ++ '\n' :: rest) = line :: splitLines rest := by
  induction line with
  | nil => simp [splitLines]
  | cons c l' ih =>
    have hc : ¬(c = '\n') := fun hc => h (by simp [hc])
    have hl' : '\n' ∉ l' := fun hm => h (by simp [hm])
    rw [List.cons_append, splitLines, if_neg hc, ih hl']

theorem parseCacheLine_good (cache : Cache) (a b : Str)
    (hk : containsSub sepTok (pyStrip a ++ ['|', '|']) = false) :
    parseCacheLine cache (pyStrip a ++ sepTok ++ pyStrip b)
      = dSet cache (pyStrip a) (pyStrip b) := by
  have hc : containsSub sepTok (pyStrip a ++ sepTok ++ pyStrip b) = true := by
    have := containsSub_middle (pyStrip a) (pyStrip b)
    simpa [List.append_assoc] using this
  unfold parseCacheLine
  rw [if_pos hc, pyStrip_wrap a b, splitFirst_boundary _ _ hk]
  show dSet cache (pyStrip (pyStrip a)) (pyStrip (pyStrip b))
    = dSet cache (pyStrip a) (pyStrip b)
  rw [pyStrip_idem, pyStrip_idem]

theorem loadLines_saveCache :
    ∀ (d : Cache) (acc : Cache),
      (∀ p ∈ d, containsSub sepTok (sanitize p.1 ++ ['|', '|']) = false) →
      (∀ p ∈ d, '\n' ∉ sanitize p.1) →
      (∀ p ∈ d, '\n' ∉ sanitize p.2) →
      (splitLines (saveCache d)).foldl parseCacheLine acc
        = (d.map fun p => (sanitize p.1, sanitize p.2)).foldl
            (fun c q => dSet c q.1 q.2) acc := by
  intro d
  induction d with
  | nil => intro acc _ _ _; rfl
  | cons p d' ih =>
    intro acc h1 h2 h3
    obtain ⟨k, v⟩ := p
    have hk1 : containsSub sepTok (sanitize k ++ ['|', '|']) = false :=
      h1 (k, v) (by simp)
    have hk2 : '\n' ∉ sanitize k := h2 (k, v) (by simp)
    have hk3 : '\n' ∉ sanitize v := h3 (k, v) (by simp)
    have hnl : '\n' ∉ sanitize k ++ sepTok ++ sanitize v := by
      intro hm
      rcases List.mem_append.1 hm with hm' | hm'
      · rcases List.mem_append.1 hm' with hm'' | hm''
        · exact hk2 hm''
        · simp [sepTok] at hm''
      · exact hk3 hm'
    have hsave : saveCache ((k, v) :: d')
        = (sanitize k ++ sepTok ++ sanitize v) ++ '\n' :: saveCache d' := by
      simp [saveCache, cacheLine, List.append_assoc]
    rw [hsave, splitLines_append _ _ hnl, List.foldl_cons]
    have hline : parseCacheLine acc (sanitize k ++ sepTok ++ sanitize v)
        = dSet acc (sanitize k) (sanitize v) := by
      have := parseCacheLine_good acc (removeSep k) (removeSep v) hk1
      simpa [sanitize] using this
    rw [hline, List.map_cons, List.foldl_cons]
    exact ih (dSet acc (sanitize k) (sanitize v))
      (fun q hq => h1 q (by simp [hq])) (fun q hq => h2 q (by simp [hq]))
      (fun q hq => h3 q (by simp [hq]))

theorem foldl_parseCacheLine_eq_filterMap :
    ∀ (lines : List Str) (acc : Cache),
      lines.foldl parseCacheLine acc
        = (lines.filterMap lineEntry).foldl (fun c p => dSet c p.1 p.2) acc := by
  intro lines
  induction lines with
  | nil => intro acc; rfl
  | cons line rest ih =>
    intro acc
    have hline : parseCacheLine acc line
        = (match lineEntry line with
           | some p => dSet acc p.1 p.2
           | none => acc) := by
      unfold parseCacheLine lineEntry
      by_cases hc : containsSub sepTok line = true
      · simp only [hc, if_true]
        cases hs : splitFirst sepTok (pyStrip line) with
        | none => rfl
        | some pr => cases pr; rfl
      · simp only [Bool.not_eq_true] at hc
        simp [hc]
    cases he : lineEntry line with
    | none =>
      rw [List.foldl_cons, hline, he, List.filterMap_cons_none he, ih]
    | some q =>
      obtain ⟨qk, qv⟩ := q
      rw [List.foldl_cons, hline, he, List.filterMap_cons_some he,
        List.foldl_cons, ih]

theorem batchLoop_saves :
    ∀ (rs : List (Str × Str)) (i : Nat),
      (batchLoop i rs).2 = savePointsCalc i rs.length := by
  intro rs
  induction rs with
  | nil => intro i; rfl
  | cons r rest ih =>
    intro i
    obtain ⟨lr, em⟩ := r
    simp [batchLoop, savePointsCalc, ih]

theorem batchLoop_statuses :
    ∀ (rs : List (Str × Str)) (i : Nat),
      (batchLoop i rs).1 = rs.map fun r => rowStatus r.1 := by
  intro rs
  induction rs with
  | nil => intro i; rfl
  | cons r rest ih =>
    intro i
    obtain ⟨lr, em⟩ := r
    simp [batchLoop, ih]

/-!  ## Claim theorems -/

/-- C1 counterexample: the claim that a parse-failure result is never stored
in the cache fails on the code.  Malformed extraction JSON (`json.loads`
fails, modelled by `none`) is recovered into the sentinel string
`Failed to parse extraction result`; but `process_row` only filters out the
empty string and `No summary extracted` before writing, so on a cache miss
with a website present this sentinel is written into the cache and the cache
is persisted immediately. -/
theorem c1_counterexample :
    parseExtractionResult none = Json.str parseFailSentinel ∧
    (resolveCompanyInfo [] "Acme".data "https://acme.example".data
      parseFailSentinel).savedImmediately = true ∧
    (resolveCompanyInfo [] "Acme".data "https://acme.example".data
      parseFailSentinel).cache = [("Acme".data, parseFailSentinel)] := by
  refine ⟨rfl, ?_, ?_⟩ <;> decide

/-- C1 (amended): for a row whose company name misses the cache and whose
website is present, `process_row` writes the extraction result into the
cache and persists it immediately exactly when the result is non-empty and
differs from the `No summary extracted` sentinel; malformed extraction JSON
is recovered locally into the `Failed to parse extraction result` sentinel
and never raises, but that sentinel — being non-empty and distinct from
`No summary extracted` — IS written to the cache. -/
theorem c1_theorem (cache : Cache) (name website : Str) (c : Option Json)
    (s : Str) (hmiss : dGet cache name = none) (hsite : website ≠ [])
    (hs : parseExtractionResult c = Json.str s) :
    ((resolveCompanyInfo cache name website s).savedImmediately = true
      ↔ (s ≠ [] ∧ s ≠ noSummarySentinel)) ∧
    ((resolveCompanyInfo cache name website s).savedImmediately = true →
      (resolveCompanyInfo cache name website s).cache = dSet cache name s) ∧
    ((resolveCompanyInfo cache name website s).savedImmediately = false →
      (resolveCompanyInfo cache name website s).cache = cache) ∧
    (c = none → s = parseFailSentinel) := by
  have hres : resolveCompanyInfo cache name website s
      = if s ≠ [] ∧ s ≠ noSummarySentinel then
          ⟨s, dSet cache name s, true, true⟩
        else ⟨s, cache, true, false⟩ := by
    unfold resolveCompanyInfo
    rw [hmiss, if_pos hsite]
  refine ⟨?_, ?_, ?_, ?_⟩
  · rw [hres]
    by_cases hcond : s ≠ [] ∧ s ≠ noSummarySentinel
    · rw [if_pos hcond]
      exact ⟨fun _ => hcond, fun _ => rfl⟩
    · rw [if_neg hcond]
      exact ⟨fun hf => absurd hf (fun h => Bool.noConfusion h), fun hcs => absurd hcs hcond⟩
  · intro hsave
    rw [hres] at hsave ⊢
    by_cases hcond : s ≠ [] ∧ s ≠ noSummarySentinel
    · rw [if_pos hcond]
    · rw [if_neg hcond] at hsave
      exact absurd hsave (fun h => Bool.noConfusion h)
  · intro hnosave
    rw [hres] at hnosave ⊢
    by_cases hcond : s ≠ [] ∧ s ≠ noSummarySentinel
    · rw [if_pos hcond] at hnosave
      exact absurd hnosave (fun h => Bool.noConfusion h)
    · rw [if_neg hcond]
  · intro hc
    rw [hc] at hs
    have : parseFailSentinel = s := by
      have := hs
      simpa [parseExtractionResult, Json.str.injEq] using this
    exact this.symm

/-- C1 witness: a genuine summary extracted from well-formed JSON is written
through to the cache and persisted at once. -/
theorem c1_witness :
    (resolveCompanyInfo [] "Globex".data "https://globex.example".data
      "Makes things.".data).savedImmediately = true :=
  (c1_theorem [] "Globex".data "https://globex.example".data
      (some (Json.obj [("summary".data, Json.str "Makes things.".data)]))
      "Makes things.".data rfl (by decide) rfl).1.mpr (by decide)

/-- C2 counterexample: the round trip does not merely delete separator
tokens.  Three concrete failures: (a) a value with surrounding whitespace
comes back trimmed; (b) a value containing a newline is cut at the newline,
because the saved line is split by the loader; (c) a key ending in a pipe
shifts the separator boundary, moving the pipe into the value.  In each case
the reloaded mapping differs from the stored mapping with separators
removed, which is what the claim promises. -/
theorem c2_counterexample :
    loadCache (saveCache [("A".data, " x".data)])
      ≠ [(removeSep "A".data, removeSep " x".data)] ∧
    loadCache (saveCache [("A".data, "x\ny".data)])
      ≠ [(removeSep "A".data, removeSep "x\ny".data)] ∧
    loadCache (saveCache [("a|".data, "v".data)])
      ≠ [(removeSep "a|".data, removeSep "v".data)] := by
  refine ⟨?_, ?_, ?_⟩ <;> decide

/-- C2 (amended): `save()` then `load()` reproduces the mapping with every
key and value sanitised — separator occurrences removed, then whitespace
trimmed (collisions of sanitised keys resolved last-writer-wins by
`buildDict`) — provided no sanitised key or value contains a newline and no
separator occurrence begins inside a sanitised key (in particular the
sanitised key must not end in a pipe). -/
theorem c2_theorem (d : Cache)
    (h1 : ∀ p ∈ d, containsSub sepTok (sanitize p.1 ++ ['|', '|']) = false)
    (h2 : ∀ p ∈ d, '\n' ∉ sanitize p.1)
    (h3 : ∀ p ∈ d, '\n' ∉ sanitize p.2) :
    loadCache (saveCache d)
      = buildDict (d.map fun p => (sanitize p.1, sanitize p.2)) :=
  loadLines_saveCache d [] h1 h2 h3

set_option maxRecDepth 100000 in
/-- C2 witness: a two-entry mapping with an embedded separator and edge
whitespace in one value round-trips to its sanitised form. -/
theorem c2_witness :
    loadCache (saveCache [("Acme Corp".data, " Builds |||widgets. ".data),
        ("Globex".data, "Evil stuff.".data)])
      = buildDict ([("Acme Corp".data, " Builds |||widgets. ".data),
          ("Globex".data, "Evil stuff.".data)].map
            fun p => (sanitize p.1, sanitize p.2)) :=
  c2_theorem _ (by decide) (by decide) (by decide)

set_option maxRecDepth 100000 in
/-- C3 counterexample: in JSON mode (main3.py) no truncation is applied: a
301-character connection request is returned unchanged — its length exceeds
300 and it does not end in the ellipsis marker — refuting the claim that
both parsing modes enforce the 300-character cap. -/
theorem c3_counterexample :
    (parseGeneratedContentJson (some (Json.obj
        [("linkedin_request".data, Json.str (List.replicate 301 'a'))]))).1
      = Json.str (List.replicate 301 'a') ∧
    (List.replicate 301 'a').length = 301 ∧
    trailsWith ellipsisTok (List.replicate 301 'a') = false := by
  refine ⟨rfl, by rw [List.length_replicate], ?_⟩
  rw [show trailsWith ellipsisTok (List.replicate 301 'a')
      = leadsWith ellipsisTok.reverse (List.replicate 301 'a').reverse from rfl,
    List.reverse_replicate]
  decide

/-- C3 (amended): in delimiter mode (main2.py), whenever the parsed
connection-request text exceeds 300 characters the returned value is exactly
300 characters and ends in the ellipsis marker; in JSON mode (main3.py) the
`linkedin_request` field is returned unchanged, with no truncation. -/
theorem c3_theorem (t : Str) (h : 300 < (delimLinkedinRaw t).length) :
    (parseGeneratedContentDelim t).1.length = 300 ∧
    trailsWith ellipsisTok (parseGeneratedContentDelim t).1 = true ∧
    (∀ fs s, jLookup fs "linkedin_request".data = some (Json.str s) →
      (parseGeneratedContentJson (some (Json.obj fs))).1 = Json.str s) := by
  have hfst : (parseGeneratedContentDelim t).1
      = (delimLinkedinRaw t).take 297 ++ ellipsisTok := by
    show pyTruncate (delimLinkedinRaw t) = _
    unfold pyTruncate
    rw [if_pos h]
  refine ⟨?_, ?_, ?_⟩
  · rw [hfst]
    simp only [List.length_append, List.length_take]
    have : ellipsisTok.length = 3 := by decide
    omega
  · rw [hfst]
    show leadsWith ellipsisTok.reverse
      (((delimLinkedinRaw t).take 297 ++ ellipsisTok).reverse) = true
    rw [List.reverse_append]
    exact leadsWith_append_self _ _
  · intro fs s hf
    simp [parseGeneratedContentJson, hf]

set_option maxRecDepth 400000 in
/-- C3 witness: a delimiter-mode text whose marked region holds 301
characters parses to a 300-character value. -/
theorem c3_witness :
    (parseGeneratedContentDelim ("LINKEDIN_REQUEST_START".data
        ++ List.replicate 301 'a' ++ "LINKEDIN_REQUEST_END".data)).1.length
      = 300 :=
  (c3_theorem _ (by decide)).1

/-- C4: any 12-row run performs exactly 3 output writes — periodic saves
after rows 5 and 10, plus the unconditional final save after the loop.  The
save schedule depends only on the row count, not on the row results: a row
that fails (`process_row` returns an `Error: ...` pair, its only failure
mode, since its boundary handler catches every exception) changes nothing
about the writes. -/
theorem c4_theorem (rs : List (Str × Str)) (h : rs.length = 12) :
    (runBatch rs).saveRows = [5, 10] ∧ (runBatch rs).totalWrites = 3 := by
  have hs : (runBatch rs).saveRows = savePointsCalc 0 rs.length :=
    batchLoop_saves rs 0
  rw [h] at hs
  have hval : savePointsCalc 0 12 = [5, 10] := by decide
  refine ⟨hs.trans hval, ?_⟩
  have ht : (runBatch rs).totalWrites = (runBatch rs).saveRows.length + 1 := rfl
  rw [ht, hs, hval]
  rfl

/-- C4 witness: a concrete 12-row run in which row 7 fails still saves after
rows 5 and 10 and once more at the end — 3 writes in total. -/
theorem c4_witness :
    (runBatch [("a".data, "b".data), ("a".data, "b".data),
        ("a".data, "b".data), ("a".data, "b".data), ("a".data, "b".data),
        ("a".data, "b".data), ("Error: boom".data, "Error: boom".data),
        ("a".data, "b".data), ("a".data, "b".data), ("a".data, "b".data),
        ("a".data, "b".data), ("a".data, "b".data)]).saveRows = [5, 10] ∧
    (runBatch [("a".data, "b".data), ("a".data, "b".data),
        ("a".data, "b".data), ("a".data, "b".data), ("a".data, "b".data),
        ("a".data, "b".data), ("Error: boom".data, "Error: boom".data),
        ("a".data, "b".data), ("a".data, "b".data), ("a".data, "b".data),
        ("a".data, "b".data), ("a".data, "b".data)]).totalWrites = 3 :=
  c4_theorem _ (by decide)

/-- C5: when both the lead information and the company information are
empty after stripping, `process_row` short-circuits to its no-content
sentinel pair and never invokes the generation collaborator — in the main2
variant with the `No content available` sentinel, and in the main3 variant
(which always has empty lead information) with its
`No company info available` sentinel. -/
theorem c5_theorem (lead company : Str) (g : GenOutcome)
    (h1 : pyStrip lead = []) (h2 : pyStrip company = []) :
    processRowTail2 lead company g
      = ((noContentSentinel, noContentSentinel), false) ∧
    processRowTail3 company g
      = ((noCompanyInfoSentinel, noCompanyInfoSentinel), false) := by
  constructor
  · unfold processRowTail2
    rw [if_pos ⟨h1, h2⟩]
  · unfold processRowTail3
    rw [if_pos h2]

/-- C5 witness: whitespace-only lead information and an empty company
summary short-circuit both variants, with the generation flag false. -/
theorem c5_witness :
    processRowTail2 " \t".data [] (GenOutcome.ok "x".data "y".data)
      = ((noContentSentinel, noContentSentinel), false) ∧
    processRowTail3 [] (GenOutcome.ok "x".data "y".data)
      = ((noCompanyInfoSentinel, noCompanyInfoSentinel), false) :=
  c5_theorem " \t".data [] (GenOutcome.ok "x".data "y".data)
    (by decide) (by decide)

/-- C6: with the source's `max_tries = 3`, an operation that fails on its
first two invocations and succeeds on the third makes `run` return the
success value after exactly 3 invocations; if the third invocation also
fails, the last failure is re-raised after exactly 3 invocations. -/
theorem c6_theorem (op : Nat → Except Str Str) (e1 e2 : Str)
    (h1 : op 1 = .error e1) (h2 : op 2 = .error e2) :
    (∀ v, op 3 = .ok v → retryRun sourceMaxTries op = (.ok v, 3)) ∧
    (∀ e3, op 3 = .error e3 → retryRun sourceMaxTries op = (.error e3, 3)) := by
  constructor
  · intro v h3
    simp [sourceMaxTries, retryRun, retryFrom, h1, h2, h3]
  · intro e3 h3
    simp [sourceMaxTries, retryRun, retryFrom, h1, h2, h3]

/-- C6 witness: a concrete operation failing twice then succeeding returns
the success value with 3 invocations. -/
theorem c6_witness :
    retryRun sourceMaxTries
      (fun i => if i ≤ 2 then .error "boom".data else .ok "done".data)
      = (.ok "done".data, 3) :=
  (c6_theorem (fun i => if i ≤ 2 then .error "boom".data else .ok "done".data)
    "boom".data "boom".data rfl rfl).1 "done".data rfl

/-- C7 counterexample: the loader does not require the two parts to be
non-empty.  The persisted line `|||v` contains the separator and splits into
an empty first part and `v`; the claim says such a line yields no entry, but
the code stores the entry with an empty key. -/
theorem c7_counterexample :
    loadCache "|||v\n".data = [([], "v".data)] ∧
    loadCache "|||v\n".data ≠ [] := by
  constructor <;> decide

/-- C7 (amended): `load()` adds an entry for a persisted line exactly when
the line contains the 3-character separator, in which case the stripped line
is split at its first separator occurrence into two trimmed parts — which
may be empty; all other lines are skipped, and loading is a total function
of the file content (the source logs and swallows every per-line error, so
it never raises). -/
theorem c7_theorem (file : Str) :
    loadCache file = buildDict ((splitLines file).filterMap lineEntry) :=
  foldl_parseCacheLine_eq_filterMap (splitLines file) []

/-- C8: in delimiter mode the parser never raises (it is a total function)
and returns the failure sentinel for exactly the fields whose marker pair is
missing: a missing LinkedIn pair yields the LinkedIn sentinel, a present
pair yields the trimmed enclosed region (subject to the length cap); the
email field behaves likewise and independently; and the spec's scenario text
parses to `Hi there` and `Subject: Hello\nBody text`. -/
theorem c8_theorem :
    (∀ t, regexBetween lkStartTok lkEndTok t = none →
      (parseGeneratedContentDelim t).1 = failLinkedin) ∧
    (∀ t g, regexBetween lkStartTok lkEndTok t = some g →
      (parseGeneratedContentDelim t).1 = pyTruncate (pyStrip g)) ∧
    (∀ t, regexBetween emStartTok emEndTok t = none →
      (parseGeneratedContentDelim t).2 = failEmail) ∧
    (∀ t g, regexBetween emStartTok emEndTok t = some g →
      (parseGeneratedContentDelim t).2 = pyStrip g) ∧
    parseGeneratedContentDelim
        ("LINKEDIN_REQUEST_START\nHi there\nLINKEDIN_REQUEST_END\nEMAIL_START\nSubject: Hello\nBody text\nEMAIL_END".data)
      = ("Hi there".data, "Subject: Hello\nBody text".data) := by
  refine ⟨?_, ?_, ?_, ?_, by decide⟩
  · intro t h
    show pyTruncate (delimLinkedinRaw t) = failLinkedin
    unfold delimLinkedinRaw
    rw [h]
    decide
  · intro t g h
    show pyTruncate (delimLinkedinRaw t) = pyTruncate (pyStrip g)
    unfold delimLinkedinRaw
    rw [h]
  · intro t h
    show delimEmail t = failEmail
    unfold delimEmail
    rw [h]
  · intro t g h
    show delimEmail t = pyStrip g
    unfold delimEmail
    rw [h]

/-- C8 witness: a text with no markers at all gets both failure sentinels. -/
theorem c8_witness :
    (parseGeneratedContentDelim "no markers here".data).1 = failLinkedin ∧
    (parseGeneratedContentDelim "no markers here".data).2 = failEmail :=
  ⟨c8_theorem.1 "no markers here".data (by decide),
   c8_theorem.2.2.1 "no markers here".data (by decide)⟩

/-- C9: a cache hit short-circuits: when the company name is a key of the
cache, `process_row` returns the stored summary unchanged, does not invoke
the fetch collaborator, writes nothing to the cache and saves nothing,
whatever the website or the would-be scrape result. -/
theorem c9_theorem (cache : Cache) (name website scrape v : Str)
    (h : dGet cache name = some v) :
    resolveCompanyInfo cache name website scrape = ⟨v, cache, false, false⟩ := by
  unfold resolveCompanyInfo
  rw [h]

/-- C9 witness: the spec scenario — a cache loaded from the persisted line
`Acme Corp|||Builds widgets.` answers `Builds widgets.` for `Acme Corp`
without fetching, leaving the cache unchanged. -/
theorem c9_witness :
    resolveCompanyInfo (loadCache "Acme Corp|||Builds widgets.\n".data)
        "Acme Corp".data "https://acme.example".data "ignored".data
      = ⟨"Builds widgets.".data,
          loadCache "Acme Corp|||Builds widgets.\n".data, false, false⟩ :=
  c9_theorem _ _ _ _ _ (by decide)

/-- C10: the batch runner records Processing Status per row by inspecting
only whether the LinkedIn Request text begins with `Error`: every
non-`Error`-prefixed result — including the parse-failure sentinels and the
no-content sentinels — is recorded `Success`, and every `Error`-prefixed
result is recorded `Failed`. -/
theorem c10_theorem :
    (∀ rs, (runBatch rs).statuses = rs.map fun r => rowStatus r.1) ∧
    (∀ lr, leadsWith errorTag lr = false → rowStatus lr = "Success".data) ∧
    (∀ lr, leadsWith errorTag lr = true → rowStatus lr = "Failed".data) ∧
    rowStatus failLinkedin = "Success".data ∧
    rowStatus failJson = "Success".data ∧
    rowStatus failEmail = "Success".data ∧
    rowStatus noContentSentinel = "Success".data ∧
    rowStatus noCompanyInfoSentinel = "Success".data := by
  refine ⟨fun rs => batchLoop_statuses rs 0, ?_, ?_,
    by decide, by decide, by decide, by decide, by decide⟩
  · intro lr h
    unfold rowStatus
    rw [h]
    rfl
  · intro lr h
    unfold rowStatus
    rw [h]
    rfl

/-- C10 witness: a sentinel-valued row is Success; an error row is Failed. -/
theorem c10_witness :
    rowStatus "No results found.".data = "Success".data ∧
    rowStatus "Error: timeout".data = "Failed".data :=
  ⟨c10_theorem.2.1 "No results found.".data (by decide),
   c10_theorem.2.2.1 "Error: timeout".data (by decide)⟩

end CEG
